import Mathlib

/-!
Verification of the Mexican-Dice multiplayer engine
(`src/engine/onlineActions.ts` and `src/lib/claimOptions.ts`).

The engine module `src/engine/mexican.ts` (claim ranking, `isLegalRaise`,
`isReverseOf`, `isMexican`, `resolveBluff`, `enumerateClaims`,
`compareClaims`, `meetsOrBeats`) is imported by the files above but its
source is not part of the provided tree; those helpers are modelled from
the specification and marked as such.
-/

/-- The two players of an online match. -/
inductive Player where
  | player1
  | player2
deriving DecidableEq, Repr

/-- The other player (the ternary player swap from the source). -/
def Player.other : Player → Player
  | .player1 => .player2
  | .player2 => .player1

/-- `lastAction` tag of `CoreGameState`. -/
inductive LastAction where
  | normal
  | reverseVsMexican
deriving DecidableEq, Repr

/-- `status` field of `CoreGameState`. -/
inductive GameStatus where
  | active
  | finished
deriving DecidableEq, Repr

/-- `CoreGameState` from `onlineActions.ts`.  Claims are stored as strings
in the TypeScript record and parsed with `parseInt` on use; they are only
ever written with `String(claim)` from a numeric claim, so they are
modelled as `Option Nat` (with `none` for `null`). Scores are `Int`. -/
structure CoreGameState where
  player1Score : Int
  player2Score : Int
  currentPlayer : Player
  currentRoll : Option String
  currentClaim : Option Nat
  baselineClaim : Option Nat
  lastAction : LastAction
  status : GameStatus
  winner : Option Player
deriving DecidableEq, Repr

/-- `ClaimResult`: `{success: true, newState}` or `{success: false, error}`. -/
inductive ClaimResult where
  | ok (newState : CoreGameState)
  | err (error : String)
deriving DecidableEq, Repr

/-- `BluffResult` (the `success` field is always `true` when returned). -/
structure BluffResult where
  newState : CoreGameState
  liar : Player
  penalty : Nat
  message : String
deriving DecidableEq, Repr

/-- Modelled from the spec: `isMexican(v)` from the missing
`src/engine/mexican.ts` — true iff v = 21. -/
def isMexican (v : Nat) : Bool := v == 21

/-- Modelled from the spec: `isReverseOf(prev, v)` from the missing
`src/engine/mexican.ts` — true iff prev = 21 and v = 31. -/
def isReverseOf (prev : Option Nat) (v : Nat) : Bool :=
  prev == some 21 && v == 31

/-- Helper for the modelled ranking: a claim value is a double when its
two digits agree. -/
def isDouble (v : Nat) : Bool := v / 10 == v % 10

/-- Modelled from the spec: the total claim ranking of the missing
`src/engine/mexican.ts` — 21 (Mexican) ranks above all, doubles outrank
non-doubles, otherwise the numeric value orders claims. -/
def rankOf (v : Nat) : Nat :=
  if v == 21 then 1000
  else if isDouble v then 100 + v
  else v

/-- Modelled from the spec: `meetsOrBeats(a, b)` from the missing
`src/engine/mexican.ts` — a ranks at least as high as b. -/
def meetsOrBeats (a b : Nat) : Bool := rankOf b ≤ rankOf a

/-- Modelled from the spec: `compareClaims(a, b)` from the missing
`src/engine/mexican.ts` — comparator consistent with `meetsOrBeats`,
used for deterministic display sorting. -/
def compareClaims (a b : Nat) : Int := (rankOf a : Int) - rankOf b

/-- Modelled from the spec: `isLegalRaise(prev, claim)` from the missing
`src/engine/mexican.ts` — legal iff prev is null, or the claim meets or
beats prev in the ranking, or the claim is the reverse of prev. -/
def isLegalRaise (prev : Option Nat) (claim : Nat) : Bool :=
  match prev with
  | none => true
  | some p => meetsOrBeats claim p || isReverseOf (some p) claim

/-- Modelled from the spec: `enumerateClaims()` from the missing
`src/engine/mexican.ts` — all normalized two-die combinations
(high die first), doubles included. -/
def enumerateClaims : List Nat :=
  [21, 31, 32, 41, 42, 43, 51, 52, 53, 54,
   61, 62, 63, 64, 65, 11, 22, 33, 44, 55, 66]

/-- Outcome record of `resolveBluff`: a numeric outcome sign
(+1 means the defender was bluffing) and the penalty in points. -/
structure BluffOutcome where
  outcome : Int
  penalty : Nat
deriving DecidableEq, Repr

/-- Modelled from the spec: `resolveBluff(claimedValue, actualRoll,
wasReverseVsMexican)` from the missing `src/engine/mexican.ts` — the
defender is truthful iff the actual roll equals the claimed value; the
penalty is 2 when the claim was a Reverse played against a Mexican and
1 otherwise. -/
def resolveBluff (claimedValue actualRoll : Nat)
    (wasReverseVsMexican : Bool) : BluffOutcome :=
  { outcome := if actualRoll == claimedValue then -1 else 1,
    penalty := if wasReverseVsMexican then 2 else 1 }

/-- `includeSpecial` from `claimOptions.ts`: ensure 21 and 31 are present. -/
def includeSpecial (list : List Nat) : List Nat :=
  let withSpecial := list
  let withSpecial := if 21 ∈ withSpecial then withSpecial else withSpecial ++ [21]
  let withSpecial := if 31 ∈ withSpecial then withSpecial else withSpecial ++ [31]
  withSpecial

/-- Ascending order of the `sort((a, b) => compareClaims(a, b))` calls. -/
def claimLE (a b : Nat) : Bool := compareClaims a b ≤ 0

/-- `buildClaimOptions(previousClaim, playerRoll?)` from `claimOptions.ts`. -/
def buildClaimOptions (previousClaim : Option Nat)
    (playerRoll : Option Nat) : List Nat :=
  let all := enumerateClaims.filter (fun v => v ≠ 41)
  match previousClaim with
  | none => all.mergeSort claimLE
  | some p =>
    if isMexican p then
      (includeSpecial []).mergeSort claimLE
    else
      (includeSpecial (all.filter (fun v => meetsOrBeats v p))).mergeSort claimLE

/-- `state.baselineClaim ? parseInt(state.baselineClaim, 10) : prev`
from `applyClaim` (`onlineActions.ts` line 82). -/
def claimToCheckOf (state : CoreGameState) : Option Nat :=
  match state.baselineClaim with
  | some b => some b
  | none => state.currentClaim

/-- `applyClaim(state, claim, actualRoll)` from `onlineActions.ts`. -/
def applyClaim (state : CoreGameState) (claim : Nat)
    (actualRoll : Option Nat) : ClaimResult :=
  if state.status = GameStatus.finished then
    .err "Game is finished"
  else
    let prev : Option Nat := state.currentClaim
    if prev = some 21 ∧ claim ≠ 21 ∧ claim ≠ 31 ∧ claim ≠ 41 then
      -- Mexican lockdown violation - player loses 2 points
      let loser := state.currentPlayer
      let newScore :=
        if loser = Player.player1 then max 0 (state.player1Score - 2)
        else max 0 (state.player2Score - 2)
      let gameOver := newScore = 0
      let otherPlayer := loser.other
      .ok { state with
        player1Score := if loser = Player.player1 then newScore else state.player1Score,
        player2Score := if loser = Player.player2 then newScore else state.player2Score,
        currentPlayer := otherPlayer,
        currentRoll := none,
        currentClaim := none,
        baselineClaim := none,
        lastAction := .normal,
        status := if gameOver then .finished else .active,
        winner := if gameOver then some otherPlayer else none }
    else
      let claimToCheck := claimToCheckOf state
      if ¬ isLegalRaise claimToCheck claim then
        .err (match claimToCheck with
          | none => "Choose a valid claim"
          | some c => s!"Claim {claim} must beat {c}")
      else if claim = 41 then
        if actualRoll ≠ some 41 then
          .err "41 is Social and must be shown, not bluffed"
        else
          -- Social shown - round resets, turn switches
          .ok { state with
            currentPlayer := state.currentPlayer.other,
            currentRoll := none,
            currentClaim := none,
            baselineClaim := none,
            lastAction := .normal }
      else
        let action : LastAction :=
          if prev = some 21 ∧ claim = 31 then .reverseVsMexican else .normal
        -- Preserve baseline through reverses
        let isReverseClaim := isReverseOf prev claim
        let newBaseline : Option Nat :=
          if isReverseClaim then
            match state.baselineClaim with
            | some b => some b
            | none => prev
          else some claim
        .ok { state with
          currentClaim := some claim,
          baselineClaim := newBaseline,
          lastAction := action,
          currentPlayer := state.currentPlayer.other,
          currentRoll := none }

/-- `applyCallBluff(state, defenderActualRoll)` from `onlineActions.ts`;
`none` models the `throw new Error('No claim to challenge')` path. -/
def applyCallBluff (state : CoreGameState)
    (defenderActualRoll : Nat) : Option BluffResult :=
  match state.currentClaim with
  | none => none
  | some currentClaim =>
    let caller := state.currentPlayer
    let defender := caller.other
    let res := resolveBluff currentClaim defenderActualRoll
      (state.lastAction = LastAction.reverseVsMexican)
    let liar := res.outcome = 1
    let loser := if liar then defender else caller
    let lossAmount := res.penalty
    let newPlayer1Score :=
      if loser = Player.player1 then max 0 (state.player1Score - lossAmount)
      else state.player1Score
    let newPlayer2Score :=
      if loser = Player.player2 then max 0 (state.player2Score - lossAmount)
      else state.player2Score
    let gameOver := newPlayer1Score = 0 ∨ newPlayer2Score = 0
    let winner : Option Player :=
      if gameOver then
        if newPlayer1Score = 0 then some .player2 else some .player1
      else none
    let callerName := if caller = Player.player1 then "Player 1" else "Player 2"
    let defenderName := if defender = Player.player1 then "Player 1" else "Player 2"
    let plural := if lossAmount > 1 then "s" else ""
    let message :=
      if ¬ liar then
        s!"{callerName} called bluff incorrectly. {defenderName} was truthful. {callerName} loses {lossAmount} point{plural}."
      else
        s!"{callerName} called bluff correctly! {defenderName} was lying. {defenderName} loses {lossAmount} point{plural}."
    some { newState := { state with
             player1Score := newPlayer1Score,
             player2Score := newPlayer2Score,
             currentPlayer := caller,
             currentRoll := none,
             currentClaim := none,
             baselineClaim := none,
             lastAction := .normal,
             status := if gameOver then .finished else .active,
             winner := winner },
           liar := if liar then defender else caller,
           penalty := lossAmount,
           message := message }

/-- The score of a given player in a state. -/
def scoreOf (s : CoreGameState) : Player → Int
  | .player1 => s.player1Score
  | .player2 => s.player2Score

/-- Initial round state: both scores at the configured initial value,
claim fields null, player1 to move, game active. -/
def initState (init : Int) : CoreGameState :=
  { player1Score := init, player2Score := init,
    currentPlayer := .player1, currentRoll := none,
    currentClaim := none, baselineClaim := none,
    lastAction := .normal, status := .active, winner := none }

/-- States reachable from the initial state through the two engine
entry points. -/
inductive Reachable (init : Int) : CoreGameState → Prop where
  | init : Reachable init (initState init)
  | claim (s s' : CoreGameState) (c : Nat) (roll : Option Nat) :
      Reachable init s → applyClaim s c roll = .ok s' → Reachable init s'
  | bluff (s : CoreGameState) (r : BluffResult) (roll : Nat) :
      Reachable init s → applyCallBluff s roll = some r →
      Reachable init r.newState

/-- Score safety: both scores non-negative, and a score of exactly zero
comes with `status = finished` and the other player as winner. -/
def GoodScores (t : CoreGameState) : Prop :=
  0 ≤ t.player1Score ∧ 0 ≤ t.player2Score ∧
  (t.player1Score = 0 → t.status = .finished ∧ t.winner = some .player2) ∧
  (t.player2Score = 0 → t.status = .finished ∧ t.winner = some .player1)

/-- Engine invariant: score safety plus the fact that finished states
carry no pending claim. -/
def EngineInv (t : CoreGameState) : Prop :=
  GoodScores t ∧ (t.status = .finished → t.currentClaim = none)

/-- An active mid-round state: player1 has claimed 54, player2 to move
(the result of `applyClaim (initState 6) 54 none`). -/
def exActive : CoreGameState :=
  { player1Score := 6, player2Score := 6, currentPlayer := .player2,
    currentRoll := none, currentClaim := some 54, baselineClaim := some 54,
    lastAction := .normal, status := .active, winner := none }

/-- State after a Mexican claim: `currentClaim = baselineClaim = 21`
(the result of `applyClaim exActive 21 none`). -/
def exMexican : CoreGameState :=
  { player1Score := 6, player2Score := 6, currentPlayer := .player1,
    currentRoll := none, currentClaim := some 21, baselineClaim := some 21,
    lastAction := .normal, status := .active, winner := none }

/-- State after a Reverse against the Mexican
(the result of `applyClaim exMexican 31 none`). -/
def exReverse : CoreGameState :=
  { player1Score := 6, player2Score := 6, currentPlayer := .player2,
    currentRoll := none, currentClaim := some 31, baselineClaim := some 21,
    lastAction := .reverseVsMexican, status := .active, winner := none }

/-- Result of `applyCallBluff exActive 54` (truthful defense). -/
def exBluffTruthRes : BluffResult :=
  { newState :=
      { player1Score := 6, player2Score := 5, currentPlayer := .player2,
        currentRoll := none, currentClaim := none, baselineClaim := none,
        lastAction := .normal, status := .active, winner := none },
    liar := .player2, penalty := 1,
    message := "Player 2 called bluff incorrectly. Player 1 was truthful. Player 2 loses 1 point." }

/-- Result of the lockdown violation `applyClaim exMexican 52 none`. -/
def exLockdownLoss : CoreGameState :=
  { player1Score := 4, player2Score := 6, currentPlayer := .player2,
    currentRoll := none, currentClaim := none, baselineClaim := none,
    lastAction := .normal, status := .active, winner := none }

/-- Result of the shown Social `applyClaim (initState 6) 41 (some 41)`. -/
def exSocialReset : CoreGameState :=
  { player1Score := 6, player2Score := 6, currentPlayer := .player2,
    currentRoll := none, currentClaim := none, baselineClaim := none,
    lastAction := .normal, status := .active, winner := none }

/-- A finished state that still carries a claim (never produced by the
engine itself, but a syntactically well-formed `CoreGameState`). -/
def exFinishedClaim : CoreGameState :=
  { player1Score := 3, player2Score := 1, currentPlayer := .player2,
    currentRoll := none, currentClaim := some 53, baselineClaim := some 53,
    lastAction := .normal, status := .finished, winner := some Player.player1 }

/-- Mid-round state of a 1-point match: player1 has claimed 53
(the result of `applyClaim (initState 1) 53 none`). -/
def exClaimed1 : CoreGameState :=
  { player1Score := 1, player2Score := 1, currentPlayer := .player2,
    currentRoll := none, currentClaim := some 53, baselineClaim := some 53,
    lastAction := .normal, status := .active, winner := none }

/-- Result of `applyCallBluff exClaimed1 62`: player1 bluffed and drops
to 0, finishing the game. -/
def exFinishedRes : BluffResult :=
  { newState :=
      { player1Score := 0, player2Score := 1, currentPlayer := .player2,
        currentRoll := none, currentClaim := none, baselineClaim := none,
        lastAction := .normal, status := .finished,
        winner := some Player.player2 },
    liar := .player1, penalty := 1,
    message := "Player 2 called bluff correctly! Player 1 was lying. Player 1 loses 1 point." }

/-- C8: `buildClaimOptions(21, r)` for every roll argument `r` returns
exactly the lockdown set {21, 31} and nothing else: no ordinary
(non-special) claim value appears in the result. -/
theorem buildClaimOptions_mexican_lockdown (r : Option Nat) (v : Nat) :
    v ∈ buildClaimOptions (some 21) r ↔ (v = 21 ∨ v = 31) := by
  simp [buildClaimOptions, isMexican, includeSpecial, List.mem_mergeSort]

/-- C9: `resolveBluff v v false` reports the defender as truthful
(outcome is not +1) with penalty 1; `resolveBluff v w false` with
`v ≠ w` reports the defender as bluffing (outcome +1) with penalty 1;
and `resolveBluff 31 w true` (Reverse played against Mexican) yields
penalty 2 regardless of the truth outcome. -/
theorem resolveBluff_outcomes (v w : Nat) :
    ((resolveBluff v v false).outcome ≠ 1 ∧
      (resolveBluff v v false).penalty = 1) ∧
    (v ≠ w →
      (resolveBluff v w false).outcome = 1 ∧
      (resolveBluff v w false).penalty = 1) ∧
    (resolveBluff 31 w true).penalty = 2 := by
  refine ⟨⟨?_, rfl⟩, fun hvw => ⟨?_, rfl⟩, rfl⟩
  · simp [resolveBluff]
  · simp [resolveBluff]
    exact fun h => hvw h.symm

/-- Witness for C9 at v = 53, w = 62. -/
theorem resolveBluff_outcomes_witness :
    (53 : Nat) ≠ 62 ∧
    (resolveBluff 53 62 false).outcome = 1 ∧
    (resolveBluff 53 62 false).penalty = 1 :=
  ⟨by decide, (resolveBluff_outcomes 53 62).2.1 (by decide)⟩

/-- C1: for every state with a non-null `currentClaim`, `applyCallBluff`
assigns the score loss to exactly one player: if the actual roll of the
defender equals the claimed value, the caller (the current player)
loses the penalty and the score of the defender is unchanged; otherwise
the defender (the other player) loses the penalty and the score of the
caller is unchanged. -/
theorem applyCallBluff_liability (s : CoreGameState) (c roll : Nat)
    (h : s.currentClaim = some c) :
    ∃ r, applyCallBluff s roll = some r ∧
      (roll = c →
        scoreOf r.newState s.currentPlayer
            = max 0 (scoreOf s s.currentPlayer - (r.penalty : Int)) ∧
        scoreOf r.newState s.currentPlayer.other
            = scoreOf s s.currentPlayer.other) ∧
      (roll ≠ c →
        scoreOf r.newState s.currentPlayer.other
            = max 0 (scoreOf s s.currentPlayer.other - (r.penalty : Int)) ∧
        scoreOf r.newState s.currentPlayer = scoreOf s s.currentPlayer) := by
  unfold applyCallBluff
  rw [h]
  refine ⟨_, rfl, ?_, ?_⟩ <;> intro hroll <;>
    cases hp : s.currentPlayer <;>
    simp [resolveBluff, hroll, scoreOf, Player.other, hp]

/-- Witness for C1: the defender claimed 54 but actually rolled 62
(a bluff), so the defender player1 loses 1 point. -/
theorem applyCallBluff_liability_witness :
    exActive.currentClaim = some 54 ∧
    (∃ r, applyCallBluff exActive 62 = some r ∧
      (62 = 54 →
        scoreOf r.newState exActive.currentPlayer
            = max 0 (scoreOf exActive exActive.currentPlayer - (r.penalty : Int)) ∧
        scoreOf r.newState exActive.currentPlayer.other
            = scoreOf exActive exActive.currentPlayer.other) ∧
      (62 ≠ 54 →
        scoreOf r.newState exActive.currentPlayer.other
            = max 0 (scoreOf exActive exActive.currentPlayer.other - (r.penalty : Int)) ∧
        scoreOf r.newState exActive.currentPlayer
            = scoreOf exActive exActive.currentPlayer)) :=
  ⟨rfl, applyCallBluff_liability exActive 54 62 rfl⟩

/-- C10: the `liar` field of the `applyCallBluff` result always equals
the player who loses the penalty — the defender (other player) when the
defender was bluffing, but the caller (current player) when the defender
was truthful — so the field names a player even when nobody lied. -/
theorem applyCallBluff_liar_field (s : CoreGameState) (c roll : Nat)
    (h : s.currentClaim = some c) :
    ∃ r, applyCallBluff s roll = some r ∧
      r.liar = (if roll = c then s.currentPlayer else s.currentPlayer.other) ∧
      scoreOf r.newState r.liar
          = max 0 (scoreOf s r.liar - (r.penalty : Int)) ∧
      scoreOf r.newState r.liar.other = scoreOf s r.liar.other := by
  unfold applyCallBluff
  rw [h]
  refine ⟨_, rfl, ?_⟩
  by_cases hroll : roll = c <;>
    cases hp : s.currentPlayer <;>
    simp [resolveBluff, hroll, scoreOf, Player.other, hp]

/-- Witness for C10: the defender told the truth (claimed 54, rolled 54),
so `liar` names the caller player2, who loses the point. -/
theorem applyCallBluff_liar_field_witness :
    exActive.currentClaim = some 54 ∧
    (∃ r, applyCallBluff exActive 54 = some r ∧
      r.liar = (if 54 = 54 then exActive.currentPlayer
                else exActive.currentPlayer.other) ∧
      scoreOf r.newState r.liar
          = max 0 (scoreOf exActive r.liar - (r.penalty : Int)) ∧
      scoreOf r.newState r.liar.other = scoreOf exActive r.liar.other) :=
  ⟨rfl, applyCallBluff_liar_field exActive 54 54 rfl⟩

/-- Helper: an accepted `applyClaim` transition preserves the engine
invariant. -/
theorem applyClaim_inv (s s' : CoreGameState) (c : Nat) (roll : Option Nat)
    (hs : EngineInv s) (h : applyClaim s c roll = .ok s') : EngineInv s' := by
  obtain ⟨⟨h1, h2, h3, h4⟩, h5⟩ := hs
  unfold applyClaim at h
  by_cases hfin : s.status = GameStatus.finished
  · simp [hfin] at h
  · rw [if_neg hfin] at h
    have hp1 : s.player1Score ≠ 0 := fun hz => hfin (h3 hz).1
    have hp2 : s.player2Score ≠ 0 := fun hz => hfin (h4 hz).1
    by_cases hlock : (s.currentClaim = some 21 ∧ c ≠ 21 ∧ c ≠ 31 ∧ c ≠ 41)
    · rw [if_pos hlock] at h
      cases h
      refine ⟨⟨?_, ?_, ?_, ?_⟩, ?_⟩ <;>
        cases hp : s.currentPlayer <;>
        simp [GoodScores, hp, Player.other] <;>
        omega
    · rw [if_neg hlock] at h
      by_cases hleg : ¬ isLegalRaise (claimToCheckOf s) c = true
      · simp [hleg] at h
      · rw [if_neg hleg] at h
        by_cases h41 : c = 41
        · rw [if_pos h41] at h
          by_cases hroll : roll ≠ some 41
          · simp [hroll] at h
          · rw [if_neg hroll] at h
            cases h
            refine ⟨⟨h1, h2, ?_, ?_⟩, ?_⟩ <;> simp_all
        · rw [if_neg h41] at h
          cases h
          refine ⟨⟨h1, h2, ?_, ?_⟩, ?_⟩ <;> simp_all

/-- Helper: a resolved bluff call preserves the engine invariant. -/
theorem applyCallBluff_inv (s : CoreGameState) (r : BluffResult) (roll : Nat)
    (hs : EngineInv s) (h : applyCallBluff s roll = some r) :
    EngineInv r.newState := by
  obtain ⟨⟨h1, h2, h3, h4⟩, h5⟩ := hs
  cases hc : s.currentClaim with
  | none => simp [applyCallBluff, hc] at h
  | some c =>
    have hfin : ¬ s.status = GameStatus.finished := fun hf => by
      rw [h5 hf] at hc
      cases hc
    have hp1 : s.player1Score ≠ 0 := fun hz => hfin (h3 hz).1
    have hp2 : s.player2Score ≠ 0 := fun hz => hfin (h4 hz).1
    unfold applyCallBluff at h
    rw [hc] at h
    cases h
    refine ⟨⟨?_, ?_, ?_, ?_⟩, ?_⟩ <;>
      cases hp : s.currentPlayer <;>
      by_cases hroll : roll = c <;>
      simp [GoodScores, resolveBluff, hp, hroll, Player.other] <;>
      omega

/-- Helper: every reachable state of a match that starts with positive
scores satisfies the engine invariant. -/
theorem reachable_inv (init : Int) (h0 : 0 < init) (s : CoreGameState)
    (hr : Reachable init s) : EngineInv s := by
  induction hr with
  | init =>
    refine ⟨⟨?_, ?_, ?_, ?_⟩, ?_⟩ <;> simp [initState, GoodScores] <;> omega
  | claim s s' c roll hr hstep ih => exact applyClaim_inv s s' c roll ih hstep
  | bluff s r roll hr hstep ih => exact applyCallBluff_inv s r roll ih hstep

/-- C2: from every reachable state, every accepted transition
(`applyClaim`, including its lockdown-violation branch, and
`applyCallBluff`) yields a state in which neither score is below 0, and
in which a score of exactly 0 comes with `status = finished` and the
other player as `winner`. -/
theorem reachable_scores_safe (init : Int) (h0 : 0 < init)
    (s : CoreGameState) (hr : Reachable init s) :
    (∀ c roll s', applyClaim s c roll = .ok s' → GoodScores s') ∧
    (∀ roll r, applyCallBluff s roll = some r → GoodScores r.newState) :=
  ⟨fun c roll s' h =>
      (applyClaim_inv s s' c roll (reachable_inv init h0 s hr) h).1,
   fun roll r h =>
      (applyCallBluff_inv s r roll (reachable_inv init h0 s hr) h).1⟩

/-- Witness for C2: the opening claim of a 6-point match. -/
theorem reachable_scores_safe_witness :
    0 < (6 : Int) ∧ GoodScores exActive :=
  ⟨by decide,
   (reachable_scores_safe 6 (by decide) (initState 6) Reachable.init).1
     54 none exActive rfl⟩

/-- C3 counterexample: on a finished state that still carries a claim,
`applyCallBluff` does not refuse — it returns a new state with a changed
score (the claim predicts a refusal with no state change). -/
theorem applyCallBluff_finished_counterexample :
    exFinishedClaim.status = GameStatus.finished ∧
    (applyCallBluff exFinishedClaim 62).map (fun r => r.newState.player1Score)
        = some 2 ∧
    exFinishedClaim.player1Score = 3 := by
  refine ⟨rfl, ?_, rfl⟩
  decide

/-- C3 (amended): on every finished state `applyClaim` fails, and
`applyCallBluff` refuses whenever `currentClaim` is null — which holds
in every reachable finished state, though `applyCallBluff` itself
performs no status check. -/
theorem finished_rejects (init : Int) (h0 : 0 < init) (s : CoreGameState)
    (hr : Reachable init s) (hfin : s.status = GameStatus.finished) :
    (∀ c roll, ∃ e, applyClaim s c roll = .err e) ∧
    (∀ roll, applyCallBluff s roll = none) := by
  constructor
  · intro c roll
    unfold applyClaim
    rw [if_pos hfin]
    exact ⟨_, rfl⟩
  · intro roll
    have hc := (reachable_inv init h0 s hr).2 hfin
    unfold applyCallBluff
    rw [hc]

/-- Witness for C3: a 1-point match that ends on a successful bluff
call; the finished state rejects both transitions. -/
theorem finished_rejects_witness :
    0 < (1 : Int) ∧
    exFinishedRes.newState.status = GameStatus.finished ∧
    (∃ e, applyClaim exFinishedRes.newState 52 none = .err e) ∧
    applyCallBluff exFinishedRes.newState 62 = none := by
  have hreach : Reachable 1 exFinishedRes.newState :=
    Reachable.bluff exClaimed1 exFinishedRes 62
      (Reachable.claim (initState 1) exClaimed1 53 none Reachable.init
        (by decide))
      (by decide)
  have h := finished_rejects 1 (by decide) exFinishedRes.newState hreach
    (by decide)
  exact ⟨by decide, by decide, h.1 52 none, h.2 62⟩

/-- C4 counterexample: on a bluff call the `currentPlayer` of the
resulting state equals (does not differ from) the `currentPlayer` of the
input state — the caller keeps the turn. -/
theorem turn_not_toggled_counterexample :
    (applyCallBluff exActive 54).map (fun r => r.newState.currentPlayer)
        = some exActive.currentPlayer ∧
    exActive.currentPlayer = Player.player2 := by
  decide

/-- C4 (amended): on every accepted `applyClaim` transition (ordinary
claim, lockdown violation, or shown Social) the turn owner toggles; on
a resolved bluff call `currentPlayer` is unchanged — the caller keeps
the turn for the next roll. -/
theorem turn_owner_transitions :
    (∀ s c roll s', applyClaim s c roll = .ok s' →
        s'.currentPlayer = s.currentPlayer.other) ∧
    (∀ s roll r, applyCallBluff s roll = some r →
        r.newState.currentPlayer = s.currentPlayer) := by
  constructor
  · intro s c roll s' h
    unfold applyClaim at h
    by_cases hfin : s.status = GameStatus.finished
    · simp [hfin] at h
    · rw [if_neg hfin] at h
      by_cases hlock : (s.currentClaim = some 21 ∧ c ≠ 21 ∧ c ≠ 31 ∧ c ≠ 41)
      · rw [if_pos hlock] at h
        cases h
        rfl
      · rw [if_neg hlock] at h
        by_cases hleg : ¬ isLegalRaise (claimToCheckOf s) c = true
        · simp [hleg] at h
        · rw [if_neg hleg] at h
          by_cases h41 : c = 41
          · rw [if_pos h41] at h
            by_cases hroll : roll ≠ some 41
            · simp [hroll] at h
            · rw [if_neg hroll] at h
              cases h
              rfl
          · rw [if_neg h41] at h
            cases h
            rfl
  · intro s roll r h
    cases hc : s.currentClaim with
    | none => simp [applyCallBluff, hc] at h
    | some c =>
      unfold applyCallBluff at h
      rw [hc] at h
      cases h
      rfl

/-- Witness for C4: the opening claim toggles the turn; the following
bluff call leaves it with the caller. -/
theorem turn_owner_transitions_witness :
    exActive.currentPlayer = (initState 6).currentPlayer.other ∧
    exBluffTruthRes.newState.currentPlayer = exActive.currentPlayer :=
  ⟨turn_owner_transitions.1 (initState 6) 54 none exActive (by decide),
   turn_owner_transitions.2 exActive 54 exBluffTruthRes (by decide)⟩

/-- C5 counterexample: in an active state whose `baselineClaim` is 21
but whose `currentClaim` is 31 (after a Reverse), a claim outside
{21, 31, 41} is rejected as an illegal raise — not accepted as an
automatic lockdown-violation loss. -/
theorem lockdown_baseline_counterexample :
    exReverse.status = GameStatus.active ∧
    exReverse.baselineClaim = some 21 ∧
    exReverse.currentClaim = some 31 ∧
    applyClaim exReverse 52 none = ClaimResult.err "Claim 52 must beat 21" := by
  decide

/-- C5 (amended): for every active state in which `currentClaim` (the
lockdown branch checks only this field, not `baselineClaim`) equals 21,
applying a claim that is none of {21, 31, 41} is accepted as an
automatic lockdown-violation loss: the score of the claimant drops by
2 (floored at zero), the claims are cleared and the turn passes. -/
theorem lockdown_violation_amended (s : CoreGameState) (claim : Nat)
    (roll : Option Nat)
    (hact : s.status = GameStatus.active)
    (h21 : s.currentClaim = some 21)
    (h1 : claim ≠ 21) (h2 : claim ≠ 31) (h3 : claim ≠ 41) :
    ∃ s', applyClaim s claim roll = .ok s' ∧
      scoreOf s' s.currentPlayer = max 0 (scoreOf s s.currentPlayer - 2) ∧
      scoreOf s' s.currentPlayer.other = scoreOf s s.currentPlayer.other ∧
      s'.currentClaim = none ∧ s'.baselineClaim = none ∧
      s'.currentPlayer = s.currentPlayer.other := by
  have hfin : ¬ s.status = GameStatus.finished := by
    rw [hact]
    exact fun h => by cases h
  unfold applyClaim
  rw [if_neg hfin, if_pos ⟨h21, h1, h2, h3⟩]
  refine ⟨_, rfl, ?_⟩
  cases hp : s.currentPlayer <;> simp [scoreOf, hp, Player.other]

/-- Witness for C5: claiming 52 right after a Mexican claim costs the
claimant 2 points and ends the turn. -/
theorem lockdown_violation_amended_witness :
    exMexican.status = GameStatus.active ∧
    exMexican.currentClaim = some 21 ∧
    (52 : Nat) ≠ 21 ∧ (52 : Nat) ≠ 31 ∧ (52 : Nat) ≠ 41 ∧
    (∃ s', applyClaim exMexican 52 none = .ok s' ∧
      scoreOf s' exMexican.currentPlayer
          = max 0 (scoreOf exMexican exMexican.currentPlayer - 2) ∧
      scoreOf s' exMexican.currentPlayer.other
          = scoreOf exMexican exMexican.currentPlayer.other ∧
      s'.currentClaim = none ∧ s'.baselineClaim = none ∧
      s'.currentPlayer = exMexican.currentPlayer.other) :=
  ⟨rfl, rfl, by decide, by decide, by decide,
   lockdown_violation_amended exMexican 52 none rfl rfl
     (by decide) (by decide) (by decide)⟩

/-- C6 counterexample: in an active state with claim 54 in force,
applying claim 41 with `actualRoll = 41` does not succeed — it is
rejected by the legality check before the Social branch is reached. -/
theorem social_counterexample :
    exActive.status = GameStatus.active ∧
    applyClaim exActive 41 (some 41)
        = ClaimResult.err "Claim 41 must beat 54" := by
  decide

/-- C6 (amended): in every active state, `applyClaim` with claim 41 and
`actualRoll ≠ 41` returns a failure result (either the legality
rejection or the Social rejection); with `actualRoll = 41` it succeeds —
clearing `currentClaim`/`baselineClaim`, passing the turn, and leaving
scores, status and winner unchanged — provided claim 41 passes the
`isLegalRaise` check against the baseline-or-current claim. -/
theorem social_amended (s : CoreGameState)
    (hact : s.status = GameStatus.active) :
    (∀ roll, roll ≠ some 41 → ∃ e, applyClaim s 41 roll = ClaimResult.err e) ∧
    (isLegalRaise (claimToCheckOf s) 41 = true →
      ∃ s', applyClaim s 41 (some 41) = .ok s' ∧
        s'.currentClaim = none ∧ s'.baselineClaim = none ∧
        s'.currentPlayer = s.currentPlayer.other ∧
        s'.player1Score = s.player1Score ∧
        s'.player2Score = s.player2Score ∧
        s'.status = s.status ∧ s'.winner = s.winner) := by
  have hfin : ¬ s.status = GameStatus.finished := by
    rw [hact]
    exact fun h => by cases h
  have hlock : ¬ (s.currentClaim = some 21 ∧ (41 : Nat) ≠ 21 ∧
      (41 : Nat) ≠ 31 ∧ (41 : Nat) ≠ 41) := by simp
  constructor
  · intro roll hroll
    unfold applyClaim
    rw [if_neg hfin, if_neg hlock]
    by_cases hleg : isLegalRaise (claimToCheckOf s) 41 = true
    · rw [if_neg (by simpa using hleg), if_pos rfl, if_pos hroll]
      exact ⟨_, rfl⟩
    · rw [if_pos (by simpa using hleg)]
      exact ⟨_, rfl⟩
  · intro hleg
    unfold applyClaim
    rw [if_neg hfin, if_neg hlock, if_neg (by simpa using hleg), if_pos rfl,
      if_neg (by simp)]
    exact ⟨_, rfl, rfl, rfl, rfl, rfl, rfl, rfl, rfl⟩

/-- Witness for C6 at the fresh round state: a non-41 roll is rejected,
and a true 41 resets the round with no penalty. -/
theorem social_amended_witness :
    (initState 6).status = GameStatus.active ∧
    (some 62 ≠ some 41 ∧
      ∃ e, applyClaim (initState 6) 41 (some 62) = ClaimResult.err e) ∧
    isLegalRaise (claimToCheckOf (initState 6)) 41 = true ∧
    (∃ s', applyClaim (initState 6) 41 (some 41) = .ok s' ∧
      s'.currentClaim = none ∧ s'.baselineClaim = none ∧
      s'.currentPlayer = (initState 6).currentPlayer.other ∧
      s'.player1Score = (initState 6).player1Score ∧
      s'.player2Score = (initState 6).player2Score ∧
      s'.status = (initState 6).status ∧ s'.winner = (initState 6).winner) :=
  ⟨rfl,
   ⟨by decide, (social_amended (initState 6) rfl).1 (some 62) (by decide)⟩,
   by decide,
   (social_amended (initState 6) rfl).2 (by decide)⟩

/-- C7 counterexample: in the run 54 → 21 (Mexican) → 31 (Reverse), the
claim in force before the Mexican was 54, yet after the Reverse the
`baselineClaim` is 21 (the Mexican itself), not the pre-Mexican 54 —
claiming Mexican overwrote the baseline. -/
theorem reverse_baseline_counterexample :
    applyClaim (initState 6) 54 none = ClaimResult.ok exActive ∧
    exActive.currentClaim = some 54 ∧
    applyClaim exActive 21 none = ClaimResult.ok exMexican ∧
    applyClaim exMexican 31 none = ClaimResult.ok exReverse ∧
    exReverse.lastAction = LastAction.reverseVsMexican ∧
    exReverse.baselineClaim = some 21 ∧
    ¬ exReverse.baselineClaim = some 54 := by
  decide

/-- C7 (amended): for every active state with `currentClaim = 21`
reached by a Mexican claim (whose `baselineClaim` is therefore 21, the
Mexican itself, since a non-reverse claim replaces the baseline),
applying claim 31 (Reverse) is accepted; the resulting state has
`lastAction = reverseVsMexican`, `baselineClaim` unchanged from the
baseline already in the state (21, not the pre-Mexican claim), and the turn
passed to the other player. -/
theorem reverse_vs_mexican_amended (s : CoreGameState) (roll : Option Nat)
    (hact : s.status = GameStatus.active)
    (h21 : s.currentClaim = some 21)
    (hb : s.baselineClaim = some 21) :
    ∃ s', applyClaim s 31 roll = .ok s' ∧
      s'.lastAction = LastAction.reverseVsMexican ∧
      s'.baselineClaim = s.baselineClaim ∧
      s'.currentClaim = some 31 ∧
      s'.currentPlayer = s.currentPlayer.other := by
  have hfin : ¬ s.status = GameStatus.finished := by
    rw [hact]
    exact fun h => by cases h
  have hlock : ¬ (s.currentClaim = some 21 ∧ (31 : Nat) ≠ 21 ∧
      (31 : Nat) ≠ 31 ∧ (31 : Nat) ≠ 41) := by simp
  have hcheck : claimToCheckOf s = some 21 := by
    unfold claimToCheckOf
    rw [hb]
  have hleg : ¬ (¬ isLegalRaise (claimToCheckOf s) 31 = true) := by
    rw [hcheck]
    decide
  unfold applyClaim
  rw [if_neg hfin, if_neg hlock, if_neg hleg, if_neg (by decide),
    if_pos ⟨h21, rfl⟩]
  refine ⟨_, rfl, rfl, ?_, rfl, rfl⟩
  simp [isReverseOf, h21, hb]

/-- Witness for C7: playing the Reverse directly after the Mexican. -/
theorem reverse_vs_mexican_amended_witness :
    exMexican.status = GameStatus.active ∧
    exMexican.currentClaim = some 21 ∧
    exMexican.baselineClaim = some 21 ∧
    (∃ s', applyClaim exMexican 31 none = .ok s' ∧
      s'.lastAction = LastAction.reverseVsMexican ∧
      s'.baselineClaim = exMexican.baselineClaim ∧
      s'.currentClaim = some 31 ∧
      s'.currentPlayer = exMexican.currentPlayer.other) :=
  ⟨rfl, rfl, rfl, reverse_vs_mexican_amended exMexican none rfl rfl rfl⟩
